import Mathlib

set_option maxRecDepth 8192

/-!
Verification development for the bluesound-controller repository.

Shallow embedding of the parts of the code relevant to the checked
properties: the retry/backoff wrapper (src/utils.py), the HTTP request
path (src/network.py), the LSDP discovery timing and datagram parser
(src/lsdp.py), the XML safety gate, discovery-method selection and the
UniFi sync (src/controller.py), and the input validators
(src/validators.py).

Python machine values are modelled with Nat/Int/Rat; fallible code
returns Option or Except; mutable state is passed explicitly.
-/

/-! ### Constants (src/constants.py) -/

/-- MAX_RETRIES = 3 (src/constants.py line 59). -/
def MAX_RETRIES : ℕ := 3

/-- RETRY_DELAY_BASE = 1.0 (src/constants.py line 60). -/
def RETRY_DELAY_BASE : ℚ := 1

/-- MAX_RETRY_DELAY = 10.0 (src/constants.py line 61). -/
def MAX_RETRY_DELAY : ℚ := 10

/-- MAX_XML_SIZE = 1_048_576 (src/constants.py line 43). -/
def MAX_XML_SIZE : ℕ := 1048576

/-- MAX_XML_DEPTH = 20 (src/constants.py line 44). -/
def MAX_XML_DEPTH : ℕ := 20

/-- MAX_XML_ELEMENTS = 10_000 (src/constants.py line 45). -/
def MAX_XML_ELEMENTS : ℕ := 10000

/-- MAX_XML_ATTRIBUTES = 100 (src/constants.py line 46). -/
def MAX_XML_ATTRIBUTES : ℕ := 100

/-- MIN_VOLUME = 0 (src/constants.py line 51). -/
def MIN_VOLUME : ℤ := 0

/-- MAX_VOLUME = 100 (src/constants.py line 52). -/
def MAX_VOLUME : ℤ := 100

/-- DISCOVERY_MDNS = "mdns" (src/constants.py line 76). -/
def DISCOVERY_MDNS : String := "mdns"

/-- DISCOVERY_LSDP = "lsdp" (src/constants.py line 77). -/
def DISCOVERY_LSDP : String := "lsdp"

/-- DISCOVERY_BOTH = "both" (src/constants.py line 78). -/
def DISCOVERY_BOTH : String := "both"

/-! ### Retry with backoff (src/utils.py lines 162-204)

The decorated call is modelled as a function from the attempt index to
an Except value: an ok result models a normal return of the wrapped
function, an error models raising an exception of type ε.  The
`catchable` predicate models `isinstance(e, exceptions)` against the
decorator's allow-list tuple.  The trace records the outcome, how many
times the wrapped function was invoked, and the durations passed to
time.sleep between attempts. -/

/-- Outcome of the retry wrapper: the wrapped call returned a value, an
exception propagated out (either not allow-listed, or allow-listed on the
final attempt and re-raised), or the for-loop completed without a single
call (only possible with max_retries = 0, where the Python code raises a
generic Exception). -/
inductive RetryOutcome (ε α : Type) where
  | success (v : α)
  | failure (e : ε)
  | exhausted
deriving DecidableEq, Repr

/-- Trace of one run of the retry wrapper. -/
structure RetryTrace (ε α : Type) where
  outcome : RetryOutcome ε α
  calls : ℕ
  sleeps : List ℚ
deriving DecidableEq, Repr

/-- One iteration of `for attempt in range(max_retries)` in the wrapper
(src/utils.py lines 186-199): call the function; on an allow-listed
exception before the last attempt, sleep min(base_delay * 2^attempt,
max_delay) and continue; otherwise the exception propagates.  The fuel
argument is the number of loop iterations left (max_retries - attempt). -/
def retry_loop (f : ℕ → Except ε α) (catchable : ε → Bool)
    (max_retries : ℕ) (base_delay max_delay : ℚ) : ℕ → ℕ → RetryTrace ε α
  | _, 0 => ⟨.exhausted, 0, []⟩
  | attempt, fuel + 1 =>
    match f attempt with
    | .ok v => ⟨.success v, 1, []⟩
    | .error e =>
      if catchable e then
        if attempt < max_retries - 1 then
          let delay := min (base_delay * 2 ^ attempt) max_delay
          let rest := retry_loop f catchable max_retries base_delay max_delay (attempt + 1) fuel
          ⟨rest.outcome, rest.calls + 1, delay :: rest.sleeps⟩
        else ⟨.failure e, 1, []⟩
      else ⟨.failure e, 1, []⟩

/-- Model of retry_with_backoff(max_retries, base_delay, max_delay,
exceptions)(f) applied to one call (src/utils.py lines 162-204). -/
def retry_with_backoff (max_retries : ℕ) (base_delay max_delay : ℚ)
    (catchable : ε → Bool) (f : ℕ → Except ε α) : RetryTrace ε α :=
  retry_loop f catchable max_retries base_delay max_delay 0 max_retries

/-! ### HTTP request path (src/network.py)

Exception classes relevant to Network.request, with Python's subclass
relations: HTTPError <: URLError <: OSError <: Exception, and
TimeoutError, ConnectionError <: OSError. -/

/-- Python exception classes that can reach Network.request. -/
inductive PyExcClass where
  | exceptionC
  | osErrorC
  | connectionErrorC
  | timeoutErrorC
  | urlErrorC
  | httpErrorC
deriving DecidableEq, Repr

/-- All ancestors of a class in Python's exception hierarchy (the class
itself included): HTTPError subclasses URLError, URLError subclasses
OSError, TimeoutError and ConnectionError subclass OSError, and every
one of these subclasses Exception. -/
def pyAncestors : PyExcClass → List PyExcClass
  | .exceptionC => [.exceptionC]
  | .osErrorC => [.osErrorC, .exceptionC]
  | .connectionErrorC => [.connectionErrorC, .osErrorC, .exceptionC]
  | .timeoutErrorC => [.timeoutErrorC, .osErrorC, .exceptionC]
  | .urlErrorC => [.urlErrorC, .osErrorC, .exceptionC]
  | .httpErrorC => [.httpErrorC, .urlErrorC, .osErrorC, .exceptionC]

/-- Model of isinstance(e, cls) for an exception instance of class c. -/
def pyIsInstance (c target : PyExcClass) : Bool :=
  target ∈ pyAncestors c

/-- The allow-list tuple of the retry decorator on Network._request_impl:
(urllib.error.URLError, TimeoutError, ConnectionError, OSError)
(src/network.py line 49). -/
def network_retry_exceptions : List PyExcClass :=
  [.urlErrorC, .timeoutErrorC, .connectionErrorC, .osErrorC]

/-- Whether the retry decorator catches an exception of class c:
isinstance against the allow-list tuple. -/
def network_catchable (c : PyExcClass) : Bool :=
  network_retry_exceptions.any (fun target => pyIsInstance c target)

/-- Model of str.startswith on one candidate: character-list prefix
test. -/
def str_starts_with (s p : String) : Bool :=
  p.toList.isPrefixOf s.toList

/-- Model of Network.request (src/network.py lines 79-121).  The
underlying transfer (urlopen + size-capped read, src/network.py lines
70-77) is a parameter mapping the attempt index to either a returned
body (none when the payload exceeded the size cap) or a raised
exception class.  Returns the value Network.request returns together
with how many times the underlying transfer was invoked.  All three
except-branches of Network.request return None. -/
def network_request (url : String)
    (transfer : ℕ → Except PyExcClass (Option (List ℕ))) :
    Option (List ℕ) × ℕ :=
  if ¬ (str_starts_with url "http://" || str_starts_with url "https://") then (none, 0)
  else
    let tr := retry_with_backoff MAX_RETRIES RETRY_DELAY_BASE MAX_RETRY_DELAY
      network_catchable transfer
    match tr.outcome with
    | .success v => (v, tr.calls)
    | .failure _ => (none, tr.calls)
    | .exhausted => (none, tr.calls)

/-! ### LSDP query send timing (src/lsdp.py lines 90-98)

The send loop is
  for i in [0, 1, 2, 3, 5, 7, 10]:
      delay = i + random.uniform(0, 0.25)
      time.sleep(delay)
      sock.sendto(query_packet, ...)
so each list element plus its jitter is slept before the corresponding
send.  Modelling time.sleep as advancing a clock, the clock value at the
k-th send is the running sum of the first k slept durations. -/

/-- The literal delay list of the send loop (src/lsdp.py line 92). -/
def lsdp_query_offsets : List ℚ := [0, 1, 2, 3, 5, 7, 10]

/-- Clock values at each send, given the paired (list element, jitter)
durations: each iteration advances the clock by element + jitter and
then sends. -/
def lsdp_send_clocks_aux : ℚ → List (ℚ × ℚ) → List ℚ
  | _, [] => []
  | t, (off, jit) :: rest =>
    lsdp_send_clocks_aux (t + (off + jit)) rest |>.cons (t + (off + jit))

/-- Clock values (total slept time) at each of the seven sends of one
LSDP discovery run, for a given list of per-iteration jitters. -/
def lsdp_send_clocks (jitters : List ℚ) : List ℚ :=
  lsdp_send_clocks_aux 0 (lsdp_query_offsets.zip jitters)

/-! ### LSDP datagram parser (src/lsdp.py lines 144-256)

A received datagram is a byte sequence, modelled as a list of naturals
(each source byte is < 256; the model is stated for arbitrary lists,
which is only stronger).  Python's data[i] raises IndexError when i is
out of range, modelled by pyIndex returning an error; slices data[a:b]
never raise, modelled by a total slice.  The while-loop of
_parse_packet has no a-priori bound (its offset advances by a byte read
from the input, which may be zero), so it is given explicit fuel. -/

/-- Error outcome of a parser run: an out-of-range data[i] access
(Python IndexError) or fuel exhaustion of the unbounded while loop. -/
inductive LSDPErr where
  | indexError
  | fuelExhausted
deriving DecidableEq, Repr

/-- Python data[i] on a bytes object: the byte, or IndexError when the
index is out of range. -/
def pyIndex (data : List ℕ) (i : ℕ) : Except LSDPErr ℕ :=
  match data.get? i with
  | some b => .ok b
  | none => .error .indexError

/-- Python slice data[a:b] on a bytes object (never raises). -/
def pySlice (data : List ℕ) (a b : ℕ) : List ℕ :=
  (data.drop a).take (b - a)

/-- Model of bytes.decode with errors equal to the ignore policy,
restricted to the ASCII range: bytes below 128 decode to themselves,
all others are dropped.  (Valid multi-byte UTF-8 sequences would decode
to non-ASCII characters; nothing proved here depends on them.) -/
def decodeIgnore (bs : List ℕ) : String :=
  String.mk (bs.filterMap (fun b => if b < 128 then some (Char.ofNat b) else none))

/-- struct.unpack of one big-endian 16-bit value from a 2-byte slice
(src/lsdp.py line 217; the slice length 2 is ensured by the guard on
the preceding line). -/
def unpackBE16 (bs : List ℕ) : ℕ :=
  bs.getD 0 0 * 256 + bs.getD 1 0

/-- Dotted-decimal rendering of a 4-byte IPv4 address slice
(src/lsdp.py line 200). -/
def ipDots (bs : List ℕ) : String :=
  String.intercalate "." (bs.map (fun b => toString b))

/-- A device as recorded by _parse_announce (src/lsdp.py lines 53-59 and
249-256): the dictionary key "node_id:class_id" together with the field
values of the stored LSDPDevice. -/
structure LSDPDevice where
  node_id : String
  ip : String
  class_id : ℕ
  txt_records : List (String × String)
deriving DecidableEq, Repr

/-- The inner TXT-record loop of _parse_announce (src/lsdp.py lines
227-247): iterates txt_count times, each iteration reading a
length-prefixed key and a length-prefixed value, breaking out (keeping
the pairs collected so far and the current offset) as soon as a bound
check fails.  Returns the offset after the loop and the collected
pairs. -/
def ann_txt_loop (data : List ℕ) :
    ℕ → ℕ → List (String × String) → Except LSDPErr (ℕ × List (String × String))
  | 0, offset, acc => .ok (offset, acc)
  | n + 1, offset, acc =>
    if data.length ≤ offset then .ok (offset, acc)
    else
      match pyIndex data offset with
      | .error e => .error e
      | .ok key_len =>
        if data.length < (offset + 1) + key_len then .ok (offset + 1, acc)
        else
          if data.length ≤ offset + 1 + key_len then .ok (offset + 1 + key_len, acc)
          else
            match pyIndex data (offset + 1 + key_len) with
            | .error e => .error e
            | .ok val_len =>
              if data.length < (offset + 1 + key_len + 1) + val_len then
                .ok (offset + 1 + key_len + 1, acc)
              else
                ann_txt_loop data n (offset + 1 + key_len + 1 + val_len)
                  (acc ++ [(decodeIgnore (pySlice data (offset + 1) (offset + 1 + key_len)),
                    decodeIgnore (pySlice data (offset + 1 + key_len + 1)
                      (offset + 1 + key_len + 1 + val_len)))])

/-- The outer announce-record loop of _parse_announce (src/lsdp.py lines
213-256): iterates count times; each iteration reads a 16-bit class id
and a TXT count (breaking out on a failed bound check), runs the TXT
loop, and stores the device under key "node_id:class_id".  The stores of
one run are returned in order (the Python dict overwrite on a repeated
key is immaterial to the recorded content). -/
def ann_record_loop (data : List ℕ) (node_id ip : String) :
    ℕ → ℕ → List (String × LSDPDevice) → Except LSDPErr (List (String × LSDPDevice))
  | 0, _, acc => .ok acc
  | n + 1, offset, acc =>
    if data.length < offset + 2 then .ok acc
    else
      if data.length ≤ offset + 2 then .ok acc
      else
        match pyIndex data (offset + 2) with
        | .error e => .error e
        | .ok txt_count =>
          match ann_txt_loop data txt_count (offset + 2 + 1) [] with
          | .error e => .error e
          | .ok (offset3, txts) =>
            ann_record_loop data node_id ip n offset3
              (acc ++ [(node_id ++ ":" ++ toString (unpackBE16 (pySlice data offset (offset + 2))),
                ⟨node_id, ip, unpackBE16 (pySlice data offset (offset + 2)), txts⟩)])

/-- The tail of _parse_announce after the address field (src/lsdp.py
lines 206-256): p carries the device IP (the decoded IPv4 payload, or
the datagram's source address as fallback) and the current offset; a
final bound check guards the record-count byte before the record
loop. -/
def parse_announce_tail (data : List ℕ) (node_id : String) (p : String × ℕ) :
    Except LSDPErr (List (String × LSDPDevice)) :=
  if data.length ≤ p.2 then .ok []
  else
    match pyIndex data p.2 with
    | .error e => .error e
    | .ok count => ann_record_loop data node_id p.1 count (p.2 + 1) []

/-- Model of _parse_announce (src/lsdp.py lines 176-256): reads the
length-prefixed node id, the address-length byte with its IPv4 payload
(falling back to the datagram's source address for any other length),
the record count, and then the record loop.  Early returns deliver an
empty store list. -/
def parse_announce (data : List ℕ) (source_ip : String) :
    Except LSDPErr (List (String × LSDPDevice)) :=
  if data.length < 3 then .ok []
  else
    match pyIndex data 2 with
    | .error e => .error e
    | .ok node_id_len =>
      if data.length < 3 + node_id_len then .ok []
      else
        if data.length ≤ 3 + node_id_len then .ok []
        else
          match pyIndex data (3 + node_id_len) with
          | .error e => .error e
          | .ok addr_len =>
            parse_announce_tail data
              (decodeIgnore (pySlice data 3 (3 + node_id_len)))
              (if addr_len = 4 ∧ (3 + node_id_len + 1) + 4 ≤ data.length then
                (ipDots (pySlice data (3 + node_id_len + 1) (3 + node_id_len + 1 + 4)),
                  3 + node_id_len + 1 + 4)
              else (source_ip, (3 + node_id_len + 1) + addr_len))

/-- The message while-loop of _parse_packet (src/lsdp.py lines 161-174):
while offset is inside the buffer, read the message length at the
offset, break if the message overruns the buffer, read the message type
at offset + 1, hand announce messages to _parse_announce, and advance
the offset by the message length.  Fuel bounds the number of
iterations. -/
def parse_packet_loop (data : List ℕ) (source_ip : String) :
    ℕ → ℕ → List (String × LSDPDevice) → Except LSDPErr (List (String × LSDPDevice))
  | 0, _, _ => .error .fuelExhausted
  | fuel + 1, offset, acc =>
    if data.length ≤ offset then .ok acc
    else if data.length < offset + 1 then .ok acc
    else
      match pyIndex data offset with
      | .error e => .error e
      | .ok msg_length =>
        if data.length < offset + msg_length then .ok acc
        else
          match pyIndex data (offset + 1) with
          | .error e => .error e
          | .ok msg_type =>
            if msg_type = 0x41 then
              match parse_announce (pySlice data offset (offset + msg_length)) source_ip with
              | .error e => .error e
              | .ok devs => parse_packet_loop data source_ip fuel (offset + msg_length) (acc ++ devs)
            else parse_packet_loop data source_ip fuel (offset + msg_length) acc

/-- Model of _parse_packet (src/lsdp.py lines 144-174): length and magic
and version checks, then the message loop starting at the header-length
offset read from byte 0. -/
def parse_packet (fuel : ℕ) (data : List ℕ) (source_ip : String) :
    Except LSDPErr (List (String × LSDPDevice)) :=
  if data.length < 6 then .ok []
  else if pySlice data 1 5 ≠ [76, 83, 68, 80] then .ok []
  else
    match pyIndex data 5 with
    | .error e => .error e
    | .ok version =>
      if version ≠ 1 then .ok []
      else
        match pyIndex data 0 with
        | .error e => .error e
        | .ok offset => parse_packet_loop data source_ip fuel offset []

/-! ### XML safety gate (src/controller.py lines 367-464)

A parsed XML tree is modelled by the data the gate inspects: per-element
attribute count, direct-text length, and children.  The tree and forest
sorts are mutual so that the recursive walk is structural. -/

mutual

/-- An XML element as seen by the safety gate: its attribute count, the
length of its direct text, and its children. -/
inductive XElem : Type where
  | mk (attribCount : ℕ) (textLen : ℕ) (children : XForest)
deriving DecidableEq

/-- A list of sibling XML elements. -/
inductive XForest : Type where
  | nil : XForest
  | cons : XElem → XForest → XForest
deriving DecidableEq

end

/-- Attribute count of an element (len(elem.attrib)). -/
def XElem.attribCount : XElem → ℕ
  | .mk a _ _ => a

/-- Direct-text length of an element (len(elem.text), 0 when None). -/
def XElem.textLen : XElem → ℕ
  | .mk _ t _ => t

mutual

/-- The check_depth walk of _safe_parse_xml (src/controller.py lines
410-434): fails when the depth exceeds MAX_XML_DEPTH; otherwise counts
the element, fails when the running element count exceeds
MAX_XML_ELEMENTS, and recurses into the children at depth + 1,
short-circuiting on the first failure.  The mutable element_count list
is threaded as the second component. -/
def check_depth : XElem → ℕ → ℕ → Bool × ℕ
  | .mk _ _ children, depth, cnt =>
    if MAX_XML_DEPTH < depth then (false, cnt)
    else
      if MAX_XML_ELEMENTS < cnt + 1 then (false, cnt + 1)
      else check_depth_forest children depth (cnt + 1)

/-- The for-child iteration of check_depth. -/
def check_depth_forest : XForest → ℕ → ℕ → Bool × ℕ
  | .nil, _, cnt => (true, cnt)
  | .cons e rest, depth, cnt =>
    match check_depth e (depth + 1) cnt with
    | (false, cnt2) => (false, cnt2)
    | (true, cnt2) => check_depth_forest rest depth cnt2

end

/-- Model of _safe_parse_xml (src/controller.py lines 367-464) from the
point of view of its checks: the payload length and
whitespace-onlyness of the raw bytes, and the tree delivered by
ET.fromstring (none models a ParseError), are inputs; the result is the
accepted root or none.  Checks in source order: empty payload, size
cap, whitespace-only payload, parse, the depth and element-count walk,
the root attribute-count ceiling of MAX_XML_ATTRIBUTES * 2, and the
root direct-text ceiling of MAX_XML_SIZE / 10 (integer division; the
Python truthiness test on root.text is subsumed, the ceiling being
positive). -/
def safe_parse_xml (xmlLen : ℕ) (whitespaceOnly : Bool) (parsed : Option XElem) :
    Option XElem :=
  if xmlLen = 0 then none
  else if MAX_XML_SIZE < xmlLen then none
  else if whitespaceOnly then none
  else
    match parsed with
    | none => none
    | some root =>
      if (check_depth root 0 0).1 = false then none
      else if MAX_XML_ATTRIBUTES * 2 < root.attribCount then none
      else if MAX_XML_SIZE / 10 < root.textLen then none
      else some root

/-! ### Validators (src/validators.py)

Python runtime values reaching validate_volume are modelled by a sum
type; Python floats by a sum of an exact rational (finite doubles),
the two infinities and NaN. -/

/-- Model of a Python float value. -/
inductive PyFloat where
  | finite (q : ℚ)
  | inf
  | negInf
  | nan
deriving DecidableEq, Repr

/-- A Python runtime value as classified by validate_volume's
isinstance check: int, bool (a subtype of int, so it passes the check),
float, str, or any other type. -/
inductive PyVal where
  | int (n : ℤ)
  | bool (b : Bool)
  | float (f : PyFloat)
  | str (s : String)
  | other
deriving DecidableEq, Repr

/-- Model of isinstance(volume, (int, float, str))
(src/validators.py line 148).  Python's bool is a subclass of int, so
bool values pass. -/
def isInstanceIntFloatStr : PyVal → Bool
  | .other => false
  | _ => true

/-- ASCII lower-casing of one character (Python str.lower restricted to
ASCII; the claims only involve ASCII data). -/
def asciiLower (c : Char) : Char :=
  if 65 ≤ c.toNat ∧ c.toNat ≤ 90 then Char.ofNat (c.toNat + 32) else c

/-- ASCII upper-casing of one character. -/
def asciiUpper (c : Char) : Char :=
  if 97 ≤ c.toNat ∧ c.toNat ≤ 122 then Char.ofNat (c.toNat - 32) else c

/-- Model of str.lower (ASCII range). -/
def py_lower (s : String) : String :=
  String.mk (s.data.map asciiLower)

/-- Model of str.upper (ASCII range). -/
def py_upper (s : String) : String :=
  String.mk (s.data.map asciiUpper)

/-- Python str.strip whitespace characters. -/
def pyIsSpace (c : Char) : Bool :=
  c = ' ' ∨ c = Char.ofNat 9 ∨ c = Char.ofNat 10 ∨ c = Char.ofNat 13 ∨
    c = Char.ofNat 11 ∨ c = Char.ofNat 12

/-- Model of str.strip: drop whitespace from both ends. -/
def py_strip (cs : List Char) : List Char :=
  ((cs.dropWhile pyIsSpace).reverse.dropWhile pyIsSpace).reverse

/-- Numeric value of a list of decimal-digit characters. -/
def digitsToNat (ds : List Char) : ℕ :=
  ds.foldl (fun a c => a * 10 + (c.toNat - 48)) 0

/-- Overflow threshold of a Python float: magnitudes at or above 2^1024
do not fit a double and the conversion overflows to an infinity.
(Stated as (2^256)^4 so that it evaluates cheaply.) -/
def PY_FLOAT_OVERFLOW : ℚ := mkRat ((2 ^ 256 : ℤ) ^ 4) 1

/-- The negated overflow threshold, -(2^1024). -/
def PY_FLOAT_NEG_OVERFLOW : ℚ := mkRat (-((2 ^ 256 : ℤ) ^ 4)) 1

/-- Wrap an exact rational as a Python float, overflowing to the signed
infinity when the magnitude is at or beyond the double range (the
rounding of in-range values to the nearest double is not modelled; no
property proved here depends on it). -/
def pyFloatOfRat (q : ℚ) : PyFloat :=
  if PY_FLOAT_OVERFLOW ≤ q then .inf
  else if q ≤ PY_FLOAT_NEG_OVERFLOW then .negInf
  else .finite q

/-- Parse the mantissa and optional exponent of a Python float literal
(digits, optional point with fraction digits, optional e/E exponent
with optional sign), requiring at least one mantissa digit and no
trailing characters.  Digit-group underscores accepted by CPython are
not modelled. -/
def pyFloatBody (cs : List Char) : Option ℚ :=
  let intPart := cs.takeWhile (fun c => c.isDigit)
  let rest1 := cs.dropWhile (fun c => c.isDigit)
  let fp : List Char × List Char :=
    match rest1 with
    | '.' :: r =>
      (r.takeWhile (fun c => c.isDigit), r.dropWhile (fun c => c.isDigit))
    | r => ([], r)
  if intPart.length = 0 ∧ fp.1.length = 0 then none
  else
    let num : ℕ := digitsToNat intPart * 10 ^ fp.1.length + digitsToNat fp.1
    let den : ℕ := 10 ^ fp.1.length
    match fp.2 with
    | [] => some (mkRat num den)
    | 'e' :: r =>
      let sr : Bool × List Char :=
        match r with
        | '-' :: rr => (true, rr)
        | '+' :: rr => (false, rr)
        | rr => (false, rr)
      if sr.2.length = 0 ∨ ¬ (sr.2.all (fun c => c.isDigit)) then none
      else
        some (if sr.1 then mkRat num (den * 10 ^ digitsToNat sr.2)
          else mkRat (num * 10 ^ digitsToNat sr.2) den)
    | _ => none

/-- Model of Python float(s) on a string: strip surrounding whitespace,
read an optional sign, accept the case-insensitive special words inf,
infinity and nan, else parse a decimal literal; none models a raised
ValueError. -/
def pyFloatOfString (s : String) : Option PyFloat :=
  let t := (py_strip s.data).map asciiLower
  let (neg, body) : Bool × List Char :=
    match t with
    | '-' :: r => (true, r)
    | '+' :: r => (false, r)
    | r => (false, r)
  if body = "inf".data ∨ body = "infinity".data then
    some (if neg then .negInf else .inf)
  else if body = "nan".data then some .nan
  else
    match pyFloatBody body with
    | none => none
    | some q => some (pyFloatOfRat (if neg then mkRat (-q.num) q.den else q))

/-- Model of float(volume) for the values admitted by the isinstance
check (src/validators.py line 154): ints convert exactly below the
double range and overflow above it, bools convert as 0 and 1, floats
pass through, strings go through the string parser; none models a
raised ValueError or OverflowError. -/
def pyFloatOfVal : PyVal → Option PyFloat
  | .int n => some (pyFloatOfRat (mkRat n 1))
  | .bool b => some (.finite (if b then 1 else 0))
  | .float f => some f
  | .str s => pyFloatOfString s
  | .other => none

/-- Truncation toward zero, the behaviour of Python int() on a float:
the numerator divided by the denominator, rounding toward zero. -/
def pyTruncRat (q : ℚ) : ℤ :=
  q.num.tdiv q.den

/-- Model of int(f) on a Python float: truncation toward zero for
finite values; none models the OverflowError raised on the infinities
and the ValueError raised on NaN. -/
def pyIntOfFloat : PyFloat → Option ℤ
  | .finite q => some (pyTruncRat q)
  | .inf => none
  | .negInf => none
  | .nan => none

/-- Model of validate_volume (src/validators.py lines 130-160): reject
non-(int, float, str) values with MIN_VOLUME, convert through
int(float(volume)) with every raised ValueError, TypeError or
OverflowError caught and mapped to MIN_VOLUME, and clamp the result to
[MIN_VOLUME, MAX_VOLUME]. -/
def validate_volume (v : PyVal) : ℤ :=
  if ¬ isInstanceIntFloatStr v then MIN_VOLUME
  else
    match pyFloatOfVal v with
    | none => MIN_VOLUME
    | some f =>
      match pyIntOfFloat f with
      | none => MIN_VOLUME
      | some vol_int => max MIN_VOLUME (min MAX_VOLUME vol_int)

/-- Model of Python int(s) on a string (src/validators.py uses it on
config values): strip surrounding whitespace, read an optional sign,
then require one or more decimal digits and nothing else; none models
a raised ValueError.  Digit-group underscores and non-ASCII digits are
not modelled. -/
def pyIntOfString (s : String) : Option ℤ :=
  let t := py_strip s.data
  let (neg, body) : Bool × List Char :=
    match t with
    | '-' :: r => (true, r)
    | '+' :: r => (false, r)
    | r => (false, r)
  if body.length = 0 ∨ ¬ (body.all (fun c => c.isDigit)) then none
  else
    let n : ℤ := digitsToNat body
    some (if neg then -n else n)

/-- Model of validate_timeout (src/validators.py lines 163-178) with
explicit bounds: max(min_val, min(max_val, int(timeout))). -/
def validate_timeout (timeout min_val max_val : ℤ) : ℤ :=
  max min_val (min max_val timeout)

/-- Model of validate_config_value (src/validators.py lines 181-233):
dispatch on the upper-cased key; integer keys parse with int() and
reject on a parse failure; UNIFI_ENABLED normalizes its accepted word
set and rejects everything else; DISCOVERY_METHOD lower-cases an
accepted value and silently falls back to "mdns" otherwise; all other
keys pass the value through. -/
def validate_config_value (key value : String) : Option String :=
  let key_upper := py_upper key
  if key_upper = "DISCOVERY_TIMEOUT" then
    match pyIntOfString value with
    | none => none
    | some timeout_val =>
      if timeout_val < 1 then none
      else some (toString (validate_timeout timeout_val 1 60))
  else if key_upper = "CACHE_TTL" then
    match pyIntOfString value with
    | none => none
    | some n => some (toString (max 0 (min 3600 n)))
  else if key_upper = "DEFAULT_SAFE_VOL" then
    match pyIntOfString value with
    | none => none
    | some n => some (toString (validate_volume (.int n)))
  else if key_upper = "UNIFI_ENABLED" then
    if py_lower value ∈ ["true", "false", "1", "0", "yes", "no"] then
      some (if py_lower value ∈ ["true", "1", "yes"] then "true" else "false")
    else none
  else if key_upper = "DISCOVERY_METHOD" then
    if py_lower value ∈ ["mdns", "lsdp", "both"] then some (py_lower value)
    else some "mdns"
  else some value

/-! ### Discovery method selection (src/controller.py lines 58-77)

The cache-miss part of BluesoundController.discover.  The two discovery
paths are oracles: the lists the mDNS and LSDP helpers would return.
The trace records the resulting set and whether each path was
invoked. -/

/-- Result of the method-selection part of discover: the set
discovered_ips after both conditional blocks, and whether each
discovery path ran. -/
structure DiscoverTrace where
  discovered : Finset String
  mdnsInvoked : Bool
  lsdpInvoked : Bool
deriving DecidableEq

/-- Model of the two conditional discovery blocks of discover
(src/controller.py lines 63-73), for an already lower-cased configured
method: discovered_ips starts empty; the mDNS block runs when the
method is "mdns" or "both" and unions its result in; the LSDP block
runs when the method is "lsdp", or the method is "both" and
discovered_ips is still empty, and unions its result in. -/
def discover_select (method : String) (mdns_ips lsdp_ips : List String) :
    DiscoverTrace :=
  let discovered0 : Finset String := ∅
  let s1 : Finset String × Bool :=
    if method = DISCOVERY_MDNS ∨ method = DISCOVERY_BOTH then
      (discovered0 ∪ mdns_ips.toFinset, true)
    else (discovered0, false)
  let s2 : Finset String × Bool :=
    if method = DISCOVERY_LSDP ∨ (method = DISCOVERY_BOTH ∧ s1.1 = ∅) then
      (s1.1 ∪ lsdp_ips.toFinset, true)
    else (s1.1, false)
  ⟨s2.1, s1.2, s2.2⟩

/-! ### UniFi sync (src/controller.py lines 266-348)

The environment of one sync_unifi call carries the configuration
lookups, the cache-file state, the fetch result and the outcome of the
JSON-processing phase; the controller state carries the device list and
the in-memory device-to-client map. -/

/-- The UniFiClient dataclass (src/models.py lines 23-33). -/
structure UniFiClient where
  mac : String
  is_wired : Bool
  uplink : String
  port_info : String
  down_tot : ℤ
  up_tot : ℤ
  down_rate : ℤ
  up_rate : ℤ
  uptime : ℤ
deriving DecidableEq

/-- The controller state sync_unifi reads and writes: the discovered IP
list and the in-memory device-to-network-client map (an insertion-order
association list). -/
structure CtrlState where
  ips : List String
  unifi_map : List (String × UniFiClient)
deriving DecidableEq

/-- The environment of one sync_unifi call.  Config lookups return none
for a missing key; Python truthiness of a config string is none-or-empty
falsity.  cacheExists, cacheLoadOk and cacheFresh model the cache file
being present, json.load succeeding, and the freshness comparison
passing; cacheClients is the map decoded from a fresh cache.
fetchResult is what Network.get returns; parsePhase is the outcome of
the JSON-processing phase of lines 305-348 (none models a raised
exception there, some m the temp_map it builds) - its internals do not
affect the properties proved here. -/
structure UnifiEnv where
  unifiEnabled : Option String
  unifiController : Option String
  unifiApiKey : Option String
  cacheExists : Bool
  cacheLoadOk : Bool
  cacheFresh : Bool
  cacheClients : List (String × UniFiClient)
  fetchResult : Option (List ℕ)
  parsePhase : Option (List (String × UniFiClient))

/-- Python truthiness of an optional config string: none and the empty
string are falsy. -/
def truthyStr : Option String → Bool
  | none => false
  | some s => s ≠ ""

/-- Model of sync_unifi (src/controller.py lines 266-348): returns the
status string and the new controller state.  Branches in source order:
the enabled/devices gate, the base/key config gate, the fresh-cache
return, the fetch-failure return (Network.get returning None or an
empty body is falsy), and the parse phase that installs the freshly
built map on success. -/
def sync_unifi (st : CtrlState) (env : UnifiEnv) : String × CtrlState :=
  if env.unifiEnabled ≠ some "true" ∨ st.ips = [] then ("SKIPPED", st)
  else if ¬ truthyStr env.unifiController ∨ ¬ truthyStr env.unifiApiKey then
    ("MISSING_CONFIG", st)
  else if env.cacheExists ∧ env.cacheLoadOk ∧ env.cacheFresh then
    ("CACHED", { st with unifi_map := env.cacheClients })
  else
    match env.fetchResult with
    | none => ("ERROR_FETCH", st)
    | some bs =>
      if bs = [] then ("ERROR_FETCH", st)
      else
        match env.parsePhase with
        | none => ("ERROR_PARSE", st)
        | some temp_map =>
          ("SUCCESS:" ++ toString temp_map.length, { st with unifi_map := temp_map })

/-- Whether an Except value is a normal result rather than a raised
error. -/
def isOkE : Except ε α → Bool
  | .ok _ => true
  | .error _ => false

/-! ## Theorems -/

/-! ### Helper lemmas -/

/-- An in-range Python byte access succeeds. -/
theorem pyIndex_isOk (data : List ℕ) (i : ℕ) (h : i < data.length) :
    ∃ b, pyIndex data i = .ok b := by
  unfold pyIndex
  cases hg : data.get? i with
  | none => exact absurd (List.get?_eq_none.mp hg) (by omega)
  | some b => exact ⟨b, rfl⟩

/-- Characterization of isOkE. -/
theorem isOkE_iff (e : Except ε α) : isOkE e = true ↔ ∃ a, e = .ok a := by
  cases e with
  | ok a => simp [isOkE]
  | error x => simp [isOkE]

/-- The TXT-record loop of the announce parser never raises: every byte
read is guarded by a preceding bound check. -/
theorem ann_txt_loop_isOk (data : List ℕ) :
    ∀ n offset acc, isOkE (ann_txt_loop data n offset acc) = true := by
  intro n
  induction n with
  | zero => intro offset acc; rfl
  | succ n ih =>
    intro offset acc
    unfold ann_txt_loop
    split
    · rfl
    · rename_i hlen
      split
      · rename_i e heq
        obtain ⟨b, hb⟩ := pyIndex_isOk data offset (by omega)
        rw [hb] at heq
        simp at heq
      · rename_i key_len heq
        split
        · rfl
        · rename_i h2
          split
          · rfl
          · rename_i h3
            split
            · rename_i e heq2
              obtain ⟨b, hb⟩ := pyIndex_isOk data (offset + 1 + key_len) (by omega)
              rw [hb] at heq2
              simp at heq2
            · rename_i val_len heq2
              split
              · rfl
              · exact ih _ _

/-- The announce-record loop never raises. -/
theorem ann_record_loop_isOk (data : List ℕ) (node_id ip : String) :
    ∀ n offset acc, isOkE (ann_record_loop data node_id ip n offset acc) = true := by
  intro n
  induction n with
  | zero => intro offset acc; rfl
  | succ n ih =>
    intro offset acc
    unfold ann_record_loop
    split
    · rfl
    · rename_i h1
      split
      · rfl
      · rename_i h2
        split
        · rename_i e heq
          obtain ⟨b, hb⟩ := pyIndex_isOk data (offset + 2) (by omega)
          rw [hb] at heq
          simp at heq
        · rename_i txt_count heq
          split
          · rename_i e heq2
            have htot := ann_txt_loop_isOk data txt_count (offset + 2 + 1) []
            rw [heq2] at htot
            simp [isOkE] at htot
          · rename_i offset3 txts heq2
            exact ih _ _

/-- The tail of the announce parser never raises. -/
theorem parse_announce_tail_isOk (data : List ℕ) (node_id : String) (p : String × ℕ) :
    isOkE (parse_announce_tail data node_id p) = true := by
  unfold parse_announce_tail
  split
  · rfl
  · rename_i h
    split
    · rename_i e heq
      obtain ⟨b, hb⟩ := pyIndex_isOk data p.2 (by omega)
      rw [hb] at heq
      simp at heq
    · rename_i count heq
      exact ann_record_loop_isOk data node_id p.1 count (p.2 + 1) []

/-- The announce parser never raises: every data[i] access in
_parse_announce is guarded by a preceding bound check, and all of its
loops are bounded by byte-valued counters. -/
theorem parse_announce_isOk (data : List ℕ) (source_ip : String) :
    isOkE (parse_announce data source_ip) = true := by
  unfold parse_announce
  split
  · rfl
  · rename_i h1
    split
    · rename_i e heq
      obtain ⟨b, hb⟩ := pyIndex_isOk data 2 (by omega)
      rw [hb] at heq
      simp at heq
    · rename_i node_id_len heq
      split
      · rfl
      · rename_i h2
        split
        · rfl
        · rename_i h3
          split
          · rename_i e heq2
            obtain ⟨b, hb⟩ := pyIndex_isOk data (3 + node_id_len) (by omega)
            rw [hb] at heq2
            simp at heq2
          · rename_i addr_len heq2
            exact parse_announce_tail_isOk data _ _

/-! ### Claim theorems -/

/-- C9 counterexample: the packet parser is not exception-free.  On the
7-byte datagram 06 4c 53 44 50 01 01 (valid header-length byte, magic
"LSDP", version 1, then the single byte 0x01), the message loop passes
both of its bound checks (offset = 6, msg_length = 1, and
offset + msg_length = 7 is not greater than the length 7) and then
reads data[offset + 1] = data[7], one past the end of the buffer: a
Python IndexError. -/
theorem parse_packet_index_error :
    parse_packet 100 [6, 76, 83, 68, 80, 1, 1] "192.168.1.50"
      = .error .indexError := by
  rfl

/-- C9 (amended): the announce parser _parse_announce terminates
normally on every byte sequence and source IP, never raising and never
reading outside the buffer; malformed content only yields fewer (or no)
recorded devices.  The packet parser _parse_packet, however, is not
total: besides the out-of-bounds read of the counterexample, a
zero-length message leaves its loop offset unchanged, so on the
datagram 06 4c 53 44 50 01 00 00 the message loop never terminates
(every amount of fuel is exhausted). -/
theorem parse_announce_total_and_packet_loop_diverges :
    (∀ (data : List ℕ) (source_ip : String),
        isOkE (parse_announce data source_ip) = true) ∧
    (∀ fuel : ℕ, parse_packet fuel [6, 76, 83, 68, 80, 1, 0, 0] "192.168.1.50"
        = .error .fuelExhausted) := by
  constructor
  · exact parse_announce_isOk
  · have h : ∀ (f : ℕ) (acc : List (String × LSDPDevice)),
        parse_packet_loop [6, 76, 83, 68, 80, 1, 0, 0] "192.168.1.50" f 6 acc
          = .error .fuelExhausted := by
      intro f
      induction f with
      | zero => intro acc; rfl
      | succ n ih =>
        intro acc
        have hstep : parse_packet_loop [6, 76, 83, 68, 80, 1, 0, 0] "192.168.1.50"
            (n + 1) 6 acc
            = parse_packet_loop [6, 76, 83, 68, 80, 1, 0, 0] "192.168.1.50" n 6 acc := rfl
        rw [hstep]
        exact ih acc
    intro fuel
    exact h fuel []

/-- C4: retry-with-backoff behaviour under max_retries = 3,
base_delay = 0.1, max_delay = 1.0 (exceptions are modelled by Bool,
with true the allow-listed kind and the catchable predicate the
identity): a function failing twice with an allow-listed exception and
then succeeding is invoked exactly 3 times with inter-attempt sleeps
0.1 and 0.2 = min(base_delay * 2^attempt, max_delay); a function always
failing with an allow-listed exception is invoked exactly 3 times and
that same exception propagates; a function failing with a
non-allow-listed exception propagates it on the first invocation with
no sleep. -/
theorem retry_with_backoff_bounds :
    (retry_with_backoff 3 (0.1 : ℚ) 1 (fun e => e)
        (fun n => if n < 2 then .error true else .ok 42)
      = ⟨.success 42, 3, [0.1, 0.2]⟩) ∧
    (retry_with_backoff 3 (0.1 : ℚ) 1 (fun e => e)
        (fun _ : ℕ => (.error true : Except Bool ℕ))
      = ⟨.failure true, 3, [0.1, 0.2]⟩) ∧
    (retry_with_backoff 3 (0.1 : ℚ) 1 (fun e => e)
        (fun _ : ℕ => (.error false : Except Bool ℕ))
      = ⟨.failure false, 1, []⟩) := by
  refine ⟨?_, ?_, ?_⟩ <;>
    norm_num [retry_with_backoff, retry_loop, min_def]

/-- C1 (code behaviour at the claimed input): when every underlying
transfer attempt raises HTTPError, Network.request returns None, but
the transfer is invoked 3 times, not once: HTTPError is a subclass of
URLError, so the retry decorator's allow-list
(URLError, TimeoutError, ConnectionError, OSError) catches it and
retries it, sleeping 1 s and then 2 s, before Network.request's
HTTPError handler turns the final re-raise into None.  This contradicts
the comment at src/network.py line 112 and the claim that 4xx/5xx
responses are not retried. -/
theorem network_request_http_error_is_retried :
    network_request "http://192.168.1.20:11000/Status"
        (fun _ => .error .httpErrorC)
      = (none, 3) ∧
    network_catchable .httpErrorC = true ∧
    (retry_with_backoff MAX_RETRIES RETRY_DELAY_BASE MAX_RETRY_DELAY network_catchable
        (fun _ : ℕ => (.error .httpErrorC : Except PyExcClass (Option (List ℕ))))).sleeps
      = [1, 2] := by
  refine ⟨?_, by rfl, ?_⟩ <;>
    norm_num [network_request, retry_with_backoff, retry_loop, min_def,
      MAX_RETRIES, RETRY_DELAY_BASE, MAX_RETRY_DELAY, network_catchable,
      network_retry_exceptions, pyIsInstance, pyAncestors, str_starts_with,
      List.isPrefixOf]

/-- C3 counterexample: the list elements 0, 1, 2, 3, 5, 7, 10 are slept
sequentially, one whole element before each send, so the total slept
time at the k-th send is the k-th prefix sum, not the k-th list
element: with zero jitter the send clocks are 0, 1, 3, 6, 11, 18, 28
and differ from the claimed 0, 1, 2, 3, 5, 7, 10 (already at the third
send: 3, not 2). -/
theorem lsdp_send_clocks_not_offsets :
    lsdp_send_clocks (List.replicate 7 0) ≠ [0, 1, 2, 3, 5, 7, 10] := by
  norm_num [lsdp_send_clocks, lsdp_send_clocks_aux, lsdp_query_offsets,
    List.replicate, List.zip, List.zipWith]

/-- C3 (amended): with zero jitter, the total slept time immediately
before the k-th send equals the k-th prefix sum of the delay list,
namely 0, 1, 3, 6, 11, 18, 28, so the seventh send completes about 28
seconds (not 10) after the loop starts. -/
theorem lsdp_send_clocks_prefix_sums :
    lsdp_send_clocks (List.replicate 7 0) = [0, 1, 3, 6, 11, 18, 28] := by
  norm_num [lsdp_send_clocks, lsdp_send_clocks_aux, lsdp_query_offsets,
    List.replicate, List.zip, List.zipWith]

/-- C2 counterexample: the gate accepts a document one of whose
non-root elements carries 101 attributes (more than
MAX_XML_ATTRIBUTES = 100): the walk checks only depth and total element
count, and the attribute ceiling is applied to the root element alone,
so a 64-byte well-formed document whose root has no attributes and one
child with 101 attributes is returned accepted. -/
theorem safe_parse_xml_accepts_nonroot_attribute_flood :
    safe_parse_xml 64 false (some (.mk 0 0 (.cons (.mk 101 0 .nil) .nil)))
      = some (.mk 0 0 (.cons (.mk 101 0 .nil) .nil)) ∧
    MAX_XML_ATTRIBUTES < (XElem.mk 101 0 XForest.nil).attribCount := by
  exact ⟨by rfl, by decide⟩

/-- C2 (amended): the only attribute-count check of the XML safety gate
is on the root element: every accepted document has a root with at most
MAX_XML_ATTRIBUTES * 2 = 200 attributes, and any document whose root
carries more than 200 attributes is rejected; the attribute counts of
non-root elements are not checked (they are bounded only indirectly, by
the payload-size, depth and element-count limits). -/
theorem safe_parse_xml_root_attribute_ceiling :
    (∀ (len : ℕ) (ws : Bool) (parsed : Option XElem) (root : XElem),
        safe_parse_xml len ws parsed = some root →
        root.attribCount ≤ MAX_XML_ATTRIBUTES * 2) ∧
    (∀ (len : ℕ) (ws : Bool) (t : XElem),
        MAX_XML_ATTRIBUTES * 2 < t.attribCount →
        safe_parse_xml len ws (some t) = none) := by
  constructor
  · intro len ws parsed root h
    unfold safe_parse_xml at h
    split at h
    · simp at h
    · split at h
      · simp at h
      · split at h
        · simp at h
        · split at h
          · simp at h
          · rename_i t
            split at h
            · simp at h
            · split at h
              · simp at h
              · split at h
                · simp at h
                · rename_i hattr htext
                  obtain rfl : t = root := by simpa using h
                  omega
  · intro len ws t hattr
    unfold safe_parse_xml
    split
    · rfl
    · split
      · rfl
      · split
        · rfl
        · show (if (check_depth t 0 0).1 = false then none
            else if MAX_XML_ATTRIBUTES * 2 < t.attribCount then none
            else if MAX_XML_SIZE / 10 < t.textLen then none
            else some t) = none
          rw [if_pos hattr]
          split <;> rfl

/-- Witness for C2's amended theorem: a root with 201 attributes is
rejected, and the accepted one-element document with a single root
attribute satisfies the ceiling. -/
theorem safe_parse_xml_root_attribute_ceiling_witness :
    safe_parse_xml 10 false (some (.mk 201 0 .nil)) = none ∧
    (XElem.mk 1 0 XForest.nil).attribCount ≤ MAX_XML_ATTRIBUTES * 2 :=
  ⟨safe_parse_xml_root_attribute_ceiling.2 10 false _ (by decide),
   safe_parse_xml_root_attribute_ceiling.1 10 false (some (.mk 1 0 .nil)) _ (by rfl)⟩

/-- C5: discovery-method selection of discover (cache not used): with
method "mdns" only the mDNS path runs and its results are used; with
"lsdp" only the LSDP path runs and its results are used; with "both"
the mDNS path runs and the LSDP path runs exactly when the mDNS result
set is empty, in which case the LSDP results are used — the two result
sets are never merged when mDNS returned anything. -/
theorem discover_method_selection (mdns_ips lsdp_ips : List String) :
    (discover_select DISCOVERY_MDNS mdns_ips lsdp_ips
        = ⟨mdns_ips.toFinset, true, false⟩) ∧
    (discover_select DISCOVERY_LSDP mdns_ips lsdp_ips
        = ⟨lsdp_ips.toFinset, false, true⟩) ∧
    (mdns_ips.toFinset ≠ ∅ →
      discover_select DISCOVERY_BOTH mdns_ips lsdp_ips
        = ⟨mdns_ips.toFinset, true, false⟩) ∧
    (mdns_ips.toFinset = ∅ →
      discover_select DISCOVERY_BOTH mdns_ips lsdp_ips
        = ⟨lsdp_ips.toFinset, true, true⟩) := by
  refine ⟨?_, ?_, fun hne => ?_, fun he => ?_⟩
  · simp [discover_select, DISCOVERY_MDNS, DISCOVERY_LSDP, DISCOVERY_BOTH]
  · simp [discover_select, DISCOVERY_MDNS, DISCOVERY_LSDP, DISCOVERY_BOTH]
  · simp [discover_select, DISCOVERY_MDNS, DISCOVERY_LSDP, DISCOVERY_BOTH, hne]
  · simp [discover_select, DISCOVERY_MDNS, DISCOVERY_LSDP, DISCOVERY_BOTH, he]

/-- Witness for C5: concrete runs along the two conditional "both"
branches. -/
theorem discover_method_selection_witness :
    discover_select DISCOVERY_BOTH ["192.168.1.5"] ["10.0.0.2"]
      = ⟨(["192.168.1.5"] : List String).toFinset, true, false⟩ ∧
    discover_select DISCOVERY_BOTH [] ["10.0.0.2"]
      = ⟨(["10.0.0.2"] : List String).toFinset, true, true⟩ :=
  ⟨(discover_method_selection ["192.168.1.5"] ["10.0.0.2"]).2.2.1 (by simp),
   (discover_method_selection [] ["10.0.0.2"]).2.2.2 (by simp)⟩

/-- C6: atomicity of sync_unifi on transport failure: with the UniFi
integration enabled, devices known, controller host and API key
configured, the disk cache stale or absent, and the fetch returning no
value, sync_unifi returns "ERROR_FETCH" and the controller state — in
particular the in-memory device-to-network-client map — is exactly what
it was before the call. -/
theorem sync_unifi_fetch_failure_preserves_map
    (st : CtrlState) (env : UnifiEnv)
    (hEn : env.unifiEnabled = some "true") (hIps : st.ips ≠ [])
    (hBase : truthyStr env.unifiController = true)
    (hKey : truthyStr env.unifiApiKey = true)
    (hCache : ¬ (env.cacheExists ∧ env.cacheLoadOk ∧ env.cacheFresh))
    (hFetch : env.fetchResult = none) :
    sync_unifi st env = ("ERROR_FETCH", st) := by
  unfold sync_unifi
  rw [hFetch]
  simp [hEn, hIps, hBase, hKey, hCache]

/-- Witness for C6: a concrete state and environment meeting the
hypotheses. -/
theorem sync_unifi_fetch_failure_witness :
    sync_unifi ⟨["192.168.1.5"], []⟩
        ⟨some "true", some "unifi.example", some "apikey",
          false, false, false, [], none, none⟩
      = ("ERROR_FETCH", ⟨["192.168.1.5"], []⟩) :=
  sync_unifi_fetch_failure_preserves_map _ _ rfl (by simp) (by rfl) (by rfl)
    (by simp) rfl

/-- C7: validation asymmetry between DISCOVERY_METHOD and
UNIFI_ENABLED: a DISCOVERY_METHOD value whose lower-casing is one of
mdns, lsdp, both validates to that lower-cased value, and every other
value silently falls back to "mdns" rather than being rejected; a
UNIFI_ENABLED value outside the accepted word set (case-insensitively
true, false, 1, 0, yes, no) is rejected with no value returned. -/
theorem config_value_method_fallback_enabled_reject :
    (∀ value : String, py_lower value ∈ ["mdns", "lsdp", "both"] →
        validate_config_value "DISCOVERY_METHOD" value = some (py_lower value)) ∧
    (∀ value : String, py_lower value ∉ ["mdns", "lsdp", "both"] →
        validate_config_value "DISCOVERY_METHOD" value = some "mdns") ∧
    (∀ value : String, py_lower value ∉ ["true", "false", "1", "0", "yes", "no"] →
        validate_config_value "UNIFI_ENABLED" value = none) := by
  refine ⟨fun value hv => ?_, fun value hv => ?_, fun value hv => ?_⟩
  · simp only [validate_config_value]
    rw [if_neg (by decide), if_neg (by decide), if_neg (by decide), if_neg (by decide),
      if_pos (by decide), if_pos hv]
  · simp only [validate_config_value]
    rw [if_neg (by decide), if_neg (by decide), if_neg (by decide), if_neg (by decide),
      if_pos (by decide), if_neg hv]
  · simp only [validate_config_value]
    rw [if_neg (by decide), if_neg (by decide), if_neg (by decide), if_pos (by decide),
      if_neg hv]

/-- Witness for C7: an upper-cased accepted method is lower-cased, an
unrecognized method falls back to "mdns", and an unrecognized enabled
word is rejected. -/
theorem config_value_method_fallback_enabled_reject_witness :
    validate_config_value "DISCOVERY_METHOD" "MDNS" = some (py_lower "MDNS") ∧
    validate_config_value "DISCOVERY_METHOD" "fast" = some "mdns" ∧
    validate_config_value "UNIFI_ENABLED" "maybe" = none :=
  ⟨config_value_method_fallback_enabled_reject.1 "MDNS" (by decide),
   config_value_method_fallback_enabled_reject.2.1 "fast" (by decide),
   config_value_method_fallback_enabled_reject.2.2 "maybe" (by decide)⟩

/-- C8: totality and clamping of validate_volume: for every input value
(integer, float, string, or anything else) the result is an integer in
[MIN_VOLUME, MAX_VOLUME] = [0, 100]; every input of a disallowed type
(outside int, bool, float, str) yields 0, every non-numeric string (one
on which float() raises ValueError) yields 0, and every float on which
int() raises (the infinities and NaN) yields 0; in particular 150
clamps to 100, -10 clamps to 0, the decimal string "25.5" truncates
toward zero to 25, and the non-numeric string "not a number"
yields 0. -/
theorem validate_volume_total_and_clamped :
    (∀ v : PyVal,
        MIN_VOLUME ≤ validate_volume v ∧ validate_volume v ≤ MAX_VOLUME) ∧
    (∀ v : PyVal, isInstanceIntFloatStr v = false → validate_volume v = 0) ∧
    (∀ s : String, pyFloatOfString s = none → validate_volume (.str s) = 0) ∧
    (∀ f : PyFloat, pyIntOfFloat f = none → validate_volume (.float f) = 0) ∧
    validate_volume (.int 150) = 100 ∧
    validate_volume (.int (-10)) = 0 ∧
    validate_volume (.str "25.5") = 25 ∧
    validate_volume (.str "not a number") = 0 := by
  refine ⟨fun v => ?_, fun v h => ?_, fun s h => ?_, fun f h => ?_,
    by decide, by decide, by decide, by decide⟩
  · unfold validate_volume
    split
    · simp [MIN_VOLUME, MAX_VOLUME]
    · split
      · simp [MIN_VOLUME, MAX_VOLUME]
      · split
        · simp [MIN_VOLUME, MAX_VOLUME]
        · simp only [MIN_VOLUME, MAX_VOLUME]
          omega
  · simp [validate_volume, h, MIN_VOLUME]
  · simp [validate_volume, isInstanceIntFloatStr, pyFloatOfVal, h, MIN_VOLUME]
  · simp [validate_volume, isInstanceIntFloatStr, pyFloatOfVal, h, MIN_VOLUME]

/-- Witness for C8: a disallowed-type value, a concrete non-numeric
string, and a concrete non-finite float all yield 0. -/
theorem validate_volume_total_and_clamped_witness :
    validate_volume PyVal.other = 0 ∧
    validate_volume (.str "abc") = 0 ∧
    validate_volume (.float .nan) = 0 :=
  ⟨validate_volume_total_and_clamped.2.1 PyVal.other (by decide),
   validate_volume_total_and_clamped.2.2.1 "abc" (by decide),
   validate_volume_total_and_clamped.2.2.2.1 PyFloat.nan (by decide)⟩

/-- C10: validate_volume accepts booleans because Python's bool is a
subtype of int, so the isinstance check against (int, float, str)
admits it: True converts to 1 and False to 0, clamped like any
number. -/
theorem validate_volume_bool_subtype :
    isInstanceIntFloatStr (.bool true) = true ∧
    isInstanceIntFloatStr (.bool false) = true ∧
    validate_volume (.bool true) = 1 ∧
    validate_volume (.bool false) = 0 := by
  refine ⟨rfl, rfl, by decide, by decide⟩
